import Mathlib

set_option maxHeartbeats 1000000

/- Shallow embedding of tracetools_trace/tracetools_trace/tools/lttng_impl.py.

External collaborators (the lttng client library, the filesystem, environment
variables, the process table and subprocess invocations) are modelled by an
explicit environment record Env: each external call site of the source reads
its result from a corresponding Env field.  Side-effecting daemon and
subprocess calls additionally record an Effect in an effect trace, so that
ordering claims (such as: the failure happens before any daemon call) can be
stated.  Python str.isdigit and int() are modelled with ASCII digit
semantics. -/

/-- Domain type constants DOMAIN_UST and DOMAIN_KERNEL of the lttng module. -/
inductive DomainType
  | ust
  | kernel
deriving DecidableEq

/-- Buffer type constants BUFFER_PER_UID and BUFFER_GLOBAL of the lttng module. -/
inductive BufType
  | perUid
  | global
deriving DecidableEq

/-- lttng.Domain as configured by setup: a domain type and a buffering discipline. -/
structure Domain where
  dtype : DomainType
  buf_type : BufType
deriving DecidableEq

/-- Symbolic value of the lttng constant EVENT_TRACEPOINT. -/
def EVENT_TRACEPOINT : Nat := 0

/-- Symbolic value of the lttng constant EVENT_LOGLEVEL_ALL. -/
def EVENT_LOGLEVEL_ALL : Nat := 0

/-- Symbolic value of the lttng constant EVENT_MMAP. -/
def EVENT_MMAP : Nat := 0

/-- The attr record of an lttng.Channel, with the fields setup assigns. -/
structure ChannelAttr where
  overwrite : Nat
  subbuf_size : Nat
  num_subbuf : Nat
  switch_timer_interval : Nat
  read_timer_interval : Nat
  output : Nat
deriving DecidableEq

/-- lttng.Channel: a name and the attribute record. -/
structure Channel where
  name : String
  attr : ChannelAttr
deriving DecidableEq

/-- lttng.Event, with the fields _create_events assigns. -/
structure Event where
  name : String
  etype : Nat
  loglevel_type : Nat
deriving DecidableEq

/-- lttng.EventContext: carries the resolved context type constant. -/
structure EventContext where
  ctx : Int
deriving DecidableEq

/-- The heterogeneous context_fields argument of setup: a Python list, set, or
per-domain dict (domain type name mapped to a list of context field names).
Python sets of strings are represented by their element lists. -/
inductive ContextFields
  | list (fields : List String)
  | set (fields : List String)
  | dict (m : List (String × List String))
deriving DecidableEq

/-- One observable external call made by the source: lttng client calls and
subprocess invocations, in program order. -/
inductive Effect
  | daemonAliveCheck
  | spawnSessiond
  | phantomProbe
  | kernelTracerCheck
  | lttngCreate (session_name full_path : String)
  | lttngDestroy (session_name : String)
  | lttngStop (session_name : String)
  | lttngStart (session_name : String)
  | createHandle (session_name : String) (dom : Domain)
  | enableChannel (handle : Nat) (channel : Channel)
  | enableEvent (handle : Nat) (event channel_name : String)
  | addContext (handle : Nat) (ctx : Int)
deriving DecidableEq

/-- The modelled external world: environment variables, filesystem, process
table, and the result of every external lttng or subprocess call that the
source can make.  The two session_daemon_alive calls of setup read
daemon_alive1 and daemon_alive2; the two lttng.create calls of
_create_session read create_result1 and create_result2.  The field
context_map models the module level static name to type table built from
CONTEXT_TYPE_CONSTANTS_MAP and the lttng module constants. -/
structure Env where
  lttng_home_env : Option String
  home_env : Option String
  fileContent : String → Option String
  isdir : String → Bool
  procTable : Nat → Option String
  daemon_alive1 : Int
  daemon_alive2 : Int
  kernel_tracer : Int × String
  create_result1 : Int
  create_result2 : Int
  destroy_result : String → Int
  stop_result : String → Int
  start_result : String → Int
  handle_result : DomainType → Option Nat
  enable_channel_result : Nat → String → Int
  enable_event_result : Nat → String → Int
  add_context_result : Nat → Int → Int
  strerror : Int → String
  context_map : String → Option Int

/-- Computation that performs external calls (recorded as an effect trace) and
either returns a value or raises a RuntimeError carrying a message string. -/
def M (α : Type) : Type := List Effect × Except String α

/-- Sequencing of effectful computations: traces are concatenated and a raised
error short-circuits, keeping the trace accumulated so far. -/
def M.bind {α β : Type} (x : M α) (f : α → M β) : M β :=
  match x.2 with
  | Except.error e => (x.1, Except.error e)
  | Except.ok a => (x.1 ++ (f a).1, (f a).2)

instance : Monad M where
  pure a := ([], Except.ok a)
  bind := M.bind

/-- Raise a RuntimeError with the given message. -/
def M.fail {α : Type} (e : String) : M α := ([], Except.error e)

/-- Record a single external call. -/
def M.emit (eff : Effect) : M Unit := ([eff], Except.ok ())

@[simp]
theorem M_bind_def {α β : Type} (x : M α) (f : α → M β) :
    Bind.bind x f = M.bind x f := rfl

@[simp]
theorem M_pure_def {α : Type} (a : α) : (pure a : M α) = ([], Except.ok a) := rfl

@[simp]
theorem M_bind_mk_ok {α β : Type} (tr : List Effect) (a : α) (f : α → M β) :
    M.bind (tr, Except.ok a) f = (tr ++ (f a).1, (f a).2) := rfl

@[simp]
theorem M_bind_mk_error {α β : Type} (tr : List Effect) (e : String) (f : α → M β) :
    M.bind (tr, Except.error e) f = (tr, Except.error e) := rfl

@[simp]
theorem M_fail_def {α : Type} (e : String) : (M.fail e : M α) = ([], Except.error e) := rfl

@[simp]
theorem M_emit_def (eff : Effect) : M.emit eff = ([eff], Except.ok ()) := rfl

/-- Membership in the trace of a bind comes from the first computation or,
when it succeeded, from the continuation. -/
theorem mem_M_bind {α β : Type} {x : M α} {f : α → M β} {e : Effect}
    (h : e ∈ (M.bind x f).1) : e ∈ x.1 ∨ ∃ a, x.2 = Except.ok a ∧ e ∈ (f a).1 := by
  unfold M.bind at h
  cases hx : x.2 with
  | error msg => rw [hx] at h; exact Or.inl h
  | ok a =>
    rw [hx] at h
    simp only [List.mem_append] at h
    cases h with
    | inl h => exact Or.inl h
    | inr h => exact Or.inr ⟨a, rfl, h⟩

/-- Python str.strip with no argument: drop leading and trailing whitespace.
Implemented on the character list of the string so that it reduces inside the
kernel. -/
def pyStrip (s : String) : String :=
  String.mk (((s.data.dropWhile Char.isWhitespace).reverse.dropWhile Char.isWhitespace).reverse)

/-- Python str.isdigit, with ASCII digit semantics: non-empty and all digits. -/
def pyIsDigit (s : String) : Bool :=
  !s.data.isEmpty && s.data.all Char.isDigit

/-- Python os.path.join for the two-argument cases used by the source. -/
def osPathJoin (a b : String) : String :=
  if "/".data.isPrefixOf b.data then b
  else if a = "" || "/".data.isSuffixOf a.data then a ++ b
  else a ++ "/" ++ b

/-- Python int() on a string of ASCII decimal digits. -/
def strToNat (s : String) : Nat :=
  s.data.foldl (fun n c => 10 * n + (c.toNat - 48)) 0

/-- get_lttng_home: the value of LTTNG_HOME if set and non-empty (Python or is
truthiness based), else the value of HOME. -/
def get_lttng_home (env : Env) : Option String :=
  match env.lttng_home_env with
  | some s => if s = "" then env.home_env else some s
  | none => env.home_env

/-- The fixed relative location of the non-root session daemon PID file. -/
def pidFilePath (lttng_home : String) : String :=
  osPathJoin (osPathJoin lttng_home ".lttng") "lttng-sessiond.pid"

/-- get_session_daemon_pid: read the PID file under the LTTng home; None when
the home is unresolved or empty, the file is absent, or the stripped file
content is not a non-empty string of digits; otherwise the parsed integer. -/
def get_session_daemon_pid (env : Env) : Option Nat :=
  match get_lttng_home env with
  | none => none
  | some lttng_home =>
    if lttng_home = "" then none
    else
      match env.fileContent (pidFilePath lttng_home) with
      | none => none
      | some contents =>
        let pid := pyStrip contents
        if pyIsDigit pid then some (strToNat pid) else none

/-- The invocation ps -o comm= pid: return code 1 with empty output when no
process with that PID exists, else return code 0 and the command name. -/
def psComm (env : Env) (pid : Nat) : Int × String :=
  match env.procTable pid with
  | none => (1, "")
  | some comm => (0, comm)

/-- is_session_daemon_unreachable: False when no PID is recorded; otherwise
look the PID up with ps and report unreachable when the process is missing or
its command name is not lttng-sessiond. -/
def is_session_daemon_unreachable (env : Env) : Bool :=
  match get_session_daemon_pid env with
  | none => false
  | some pid =>
    let res := psComm env pid
    res.1 == 1 || pyStrip res.2 != "lttng-sessiond"

/-- is_kernel_tracer_available: run lttng list -k; a non-zero return code
means unavailable, with the captured stderr text as the message. -/
def is_kernel_tracer_available (env : Env) : Bool × Option String :=
  if env.kernel_tracer.1 ≠ 0 then (false, some env.kernel_tracer.2) else (true, none)

/-- _create_events: one tracepoint event descriptor per name, with loglevel
all. -/
def _create_events (event_names : List String) : List Event :=
  event_names.map (fun n =>
    { name := n, etype := EVENT_TRACEPOINT, loglevel_type := EVENT_LOGLEVEL_ALL })

/-- Message raised by destroy on a negative result code. -/
def destroy_error_msg (env : Env) (session_name : String) : String :=
  "failed to destroy tracing session: " ++ env.strerror (env.destroy_result session_name)

/-- destroy: delegate to lttng.destroy; a negative result raises unless
ignore_error is set. -/
def destroy_run (env : Env) (session_name : String) (ignore_error : Bool) : M Unit :=
  ([Effect.lttngDestroy session_name],
   if env.destroy_result session_name < 0 && !ignore_error
   then Except.error (destroy_error_msg env session_name)
   else Except.ok ())

/-- Message raised by stop on a negative result code. -/
def stop_error_msg (env : Env) (session_name : String) : String :=
  "failed to stop tracing: " ++ env.strerror (env.stop_result session_name)

/-- stop: delegate to lttng.stop; a negative result raises unless
ignore_error is set. -/
def stop_run (env : Env) (session_name : String) (ignore_error : Bool) : M Unit :=
  ([Effect.lttngStop session_name],
   if env.stop_result session_name < 0 && !ignore_error
   then Except.error (stop_error_msg env session_name)
   else Except.ok ())

/-- start: delegate to lttng.start; a negative result always raises. -/
def start_run (env : Env) (session_name : String) : M Unit :=
  ([Effect.lttngStart session_name],
   if env.start_result session_name < 0
   then Except.error ("failed to start tracing: " ++ env.strerror (env.start_result session_name))
   else Except.ok ())

/-- _create_session: call lttng.create; on the reserved already-exists code
-28, destroy the stale session (not error-suppressed) and call create once
more; any negative final result raises. -/
def _create_session_run (env : Env) (session_name full_path : String) : M Unit := do
  M.emit (Effect.lttngCreate session_name full_path)
  if env.create_result1 = -28 then do
    destroy_run env session_name false
    M.emit (Effect.lttngCreate session_name full_path)
    if env.create_result2 < 0 then
      M.fail ("session creation failed: " ++ env.strerror env.create_result2)
    else pure ()
  else
    if env.create_result1 < 0 then
      M.fail ("session creation failed: " ++ env.strerror env.create_result1)
    else pure ()

/-- _create_handle: lttng.Handle for the session and domain; a None handle
raises. -/
def _create_handle_run (env : Env) (session_name : String) (dom : Domain) : M Nat :=
  ([Effect.createHandle session_name dom],
   match env.handle_result dom.dtype with
   | none => Except.error "handle creation failed"
   | some h => Except.ok h)

/-- _enable_channel: lttng.enable_channel; a negative result raises. -/
def _enable_channel_run (env : Env) (h : Nat) (c : Channel) : M Unit :=
  ([Effect.enableChannel h c],
   if env.enable_channel_result h c.name < 0
   then Except.error ("channel enabling failed: " ++ env.strerror (env.enable_channel_result h c.name))
   else Except.ok ())

/-- _enable_events: lttng.enable_event per event, aborting on the first
negative result. -/
def _enable_events_run (env : Env) (h : Nat) (events : List Event) (channel_name : String) : M Unit :=
  match events with
  | [] => pure ()
  | e :: rest =>
    M.bind
      ([Effect.enableEvent h e.name channel_name],
       if env.enable_event_result h e.name < 0
       then Except.error ("event enabling failed: " ++ env.strerror (env.enable_event_result h e.name))
       else Except.ok ())
      (fun _ => _enable_events_run env h rest channel_name)

/-- _context_field_name_to_type: look a context field name up in the static
table context_map. -/
def _context_field_name_to_type (table : String → Option Int) (context_field_name : String) : Option Int :=
  table context_field_name

/-- _create_context_list: resolve each field name of the set through the
static table, raising at the first name that does not resolve. -/
def _create_context_list (table : String → Option Int) : List String → Except String (List EventContext)
  | [] => Except.ok []
  | f :: rest =>
    match _context_field_name_to_type table f with
    | none => Except.error ("failed to find context type: " ++ f)
    | some t => (_create_context_list table rest).map (fun l => EventContext.mk t :: l)

/-- Python dict lookup in an association list model of a dict literal;
failure corresponds to a KeyError. -/
def lookupDict (m : List (String × List String)) (k : String) : Option (List String) :=
  (m.find? (fun p => p.1 = k)).map Prod.snd

/-- The filtering comprehension of _normalize_contexts_dict: keep only the
domains whose handle is not None. -/
def filterHandles (handles : List (String × Option Nat)) : List (String × Nat) :=
  handles.filterMap (fun p => p.2.map (fun h => (p.1, h)))

/-- Evaluation of a dict comprehension over a list of keys, where computing
one value may raise: stops at the first raise. -/
def mapExcept {α β : Type} (g : α → Except String β) : List α → Except String (List β)
  | [] => Except.ok []
  | a :: l =>
    match g a with
    | Except.error e => Except.error e
    | Except.ok b => (mapExcept g l).map (fun bs => b :: bs)

/-- _normalize_contexts_dict: filter out domains without a handle, then map
each remaining handle to its context descriptor list.  A flat set is applied
to every remaining domain; a per-domain dict is subscripted with each domain
name (a missing key raises KeyError); any other shape trips the assertion. -/
def _normalize_contexts_dict (table : String → Option Int)
    (handles : List (String × Option Nat)) (context_fields : ContextFields) :
    Except String (List (Nat × List EventContext)) :=
  let hs := filterHandles handles
  match context_fields with
  | ContextFields.set fields =>
    mapExcept (fun p => (_create_context_list table fields).map (fun l => (p.2, l))) hs
  | ContextFields.dict m =>
    mapExcept (fun p =>
      match lookupDict m p.1 with
      | none => Except.error ("KeyError: " ++ p.1)
      | some fields => (_create_context_list table fields.dedup).map (fun l => (p.2, l))) hs
  | ContextFields.list _ => Except.error "AssertionError"

/-- The inner loop of _add_context: lttng.add_context per event context of one
handle, aborting on the first negative result. -/
def _add_context_one (env : Env) (h : Nat) : List EventContext → M Unit
  | [] => pure ()
  | c :: rest =>
    M.bind
      ([Effect.addContext h c.ctx],
       if env.add_context_result h c.ctx < 0
       then Except.error ("failed to add context field: " ++ env.strerror (env.add_context_result h c.ctx))
       else Except.ok ())
      (fun _ => _add_context_one env h rest)

/-- _add_context: apply the context plan handle by handle. -/
def _add_context_run (env : Env) : List (Nat × List EventContext) → M Unit
  | [] => pure ()
  | (h, cs) :: rest => M.bind (_add_context_one env h cs) (fun _ => _add_context_run env rest)

/-- The parameters of setup, without the Python default values (every call
site in the claims supplies them explicitly). -/
structure SetupParams where
  session_name : String
  base_path : String
  append_trace : Bool
  ros_events : List String
  kernel_events : List String
  context_fields : ContextFields
  channel_name_ust : String
  channel_name_kernel : String
  subbuffer_size_ust : Nat
  subbuffer_size_kernel : Nat

/-- The diagnostic raised when a phantom session daemon is detected. -/
def PHANTOM_MSG : String :=
  "lttng-sessiond seems to exist, but is unreachable. If using two containers with the same HOME directory, set the LTTNG_HOME environment variable to the path to a unique directory for each container and make sure that the directory exists. See: https://bugs.lttng.org/issues/1371"

/-- The fixed tail of the kernel tracer diagnostic, after the raw backend
error text. -/
def kernel_msg_tail : String :=
  "\n  cannot use kernel events:\n    \x27ros2 trace\x27 command: cannot use \x27-k\x27 option\n    \x27Trace\x27 action: cannot set \x27events_kernel\x27/\x27events-kernel\x27 list\n  install the kernel tracer, e.g., on Ubuntu, install lttng-modules-dkms\n  see: https://github.com/ros2/ros2_tracing#building"

/-- The full kernel tracer diagnostic: the raw backend error text framed by
the fixed prefix and tail. -/
def kernel_unavailable_msg (message : String) : String :=
  "kernel tracer is not available: " ++ message ++ kernel_msg_tail

/-- The daemon establishment steps of setup: an aliveness check with a
best-effort spawn, the phantom daemon check, and a final aliveness check. -/
def setup_daemon_stage (env : Env) : M Unit := do
  M.emit Effect.daemonAliveCheck
  if env.daemon_alive1 = 0 then M.emit Effect.spawnSessiond else pure ()
  M.emit Effect.phantomProbe
  if is_session_daemon_unreachable env then M.fail PHANTOM_MSG else pure ()
  M.emit Effect.daemonAliveCheck
  if env.daemon_alive2 = 0 then M.fail "failed to start lttng session daemon" else pure ()

/-- The kernel tracer precheck of setup: probe only when the kernel event
list is non-empty and raise when the probe reports unavailable. -/
def setup_tracer_stage (env : Env) (kernel_events : List String) : M Unit :=
  if kernel_events.isEmpty then pure ()
  else
    M.bind (M.emit Effect.kernelTracerCheck) (fun _ =>
      if (is_kernel_tracer_available env).1 = false then
        M.fail (kernel_unavailable_msg ((is_kernel_tracer_available env).2.getD ""))
      else pure ())

/-- The per-domain block of setup: create the handle, enable the channel,
enable the events. -/
def setup_domain_stage (env : Env) (session_name : String) (dom : Domain)
    (ch : Channel) (events : List Event) : M Nat := do
  let h ← _create_handle_run env session_name dom
  _enable_channel_run env h ch
  _enable_events_run env h events ch.name
  pure h

/-- The channel record setup builds for the UST domain. -/
def mk_channel_ust (p : SetupParams) : Channel :=
  { name := p.channel_name_ust,
    attr := { overwrite := 0, subbuf_size := p.subbuffer_size_ust, num_subbuf := 2,
              switch_timer_interval := 0, read_timer_interval := 200, output := EVENT_MMAP } }

/-- The channel record setup builds for the kernel domain. -/
def mk_channel_kernel (p : SetupParams) : Channel :=
  { name := p.channel_name_kernel,
    attr := { overwrite := 0, subbuf_size := p.subbuffer_size_kernel, num_subbuf := 2,
              switch_timer_interval := 0, read_timer_interval := 200, output := EVENT_MMAP } }

/-- The UST domain record setup builds. -/
def domain_ust : Domain := { dtype := DomainType.ust, buf_type := BufType.perUid }

/-- The kernel domain record setup builds. -/
def domain_kernel : Domain := { dtype := DomainType.kernel, buf_type := BufType.global }

/-- The per-domain block of setup guarded by the enable flag of the domain:
a disabled domain keeps a None handle and makes no calls. -/
def setup_domain_opt (env : Env) (session_name : String) (enabled : Bool) (dom : Domain)
    (ch : Channel) (events : List Event) : M (Option Nat) :=
  if enabled then
    M.bind (setup_domain_stage env session_name dom ch events) (fun h => pure (some h))
  else pure none

/-- The context block of setup: normalize the context configuration across
the two domain handles and apply the resulting plan. -/
def setup_ctx_stage (env : Env) (full_path : String) (context_fields : ContextFields)
    (handle_kernel handle_ust : Option Nat) : M String :=
  match _normalize_contexts_dict env.context_map
      [("kernel", handle_kernel), ("userspace", handle_ust)] context_fields with
  | Except.error e => M.fail e
  | Except.ok contexts_dict =>
    M.bind (_add_context_run env contexts_dict) (fun _ => pure full_path)

/-- The part of setup after the prechecks: set conversions, session creation,
per-domain configuration, and context application. -/
def setup_rest (env : Env) (p : SetupParams) (full_path : String) : M String :=
  let ros_events := p.ros_events.dedup
  let kernel_events := p.kernel_events.dedup
  let context_fields :=
    match p.context_fields with
    | ContextFields.list fs => ContextFields.set fs.dedup
    | cf => cf
  let ust_enabled := !ros_events.isEmpty
  let kernel_enabled := !kernel_events.isEmpty
  do
    _create_session_run env p.session_name full_path
    let handle_ust ← setup_domain_opt env p.session_name ust_enabled domain_ust
      (mk_channel_ust p) (_create_events ros_events)
    let handle_kernel ← setup_domain_opt env p.session_name kernel_enabled domain_kernel
      (mk_channel_kernel p) (_create_events kernel_events)
    setup_ctx_stage env full_path context_fields handle_kernel handle_ust

/-- The message raised by setup when the trace directory already exists and
appending was not requested. -/
def dir_exists_msg (full_path : String) : String :=
  "trace directory already exists, use the append option to append to it: " ++ full_path

/-- setup: validate the session name and directory, establish a reachable
session daemon, precheck the kernel tracer, then create and configure the
session, returning the full trace directory path. -/
def setup_run (env : Env) (p : SetupParams) : M String :=
  if p.session_name = "" then M.fail "empty session name"
  else
    let full_path := osPathJoin p.base_path p.session_name
    if env.isdir full_path && !p.append_trace then M.fail (dir_exists_msg full_path)
    else
      M.bind (setup_daemon_stage env) (fun _ =>
        M.bind (setup_tracer_stage env p.kernel_events) (fun _ =>
          setup_rest env p full_path))

/-- The effect prefix of every setup execution that reaches the kernel tracer precheck: the first aliveness check, the conditional daemon spawn, the phantom probe, and the second aliveness check. -/
def daemonTrace (env : Env) : List Effect :=
  [Effect.daemonAliveCheck] ++ (if env.daemon_alive1 = 0 then [Effect.spawnSessiond] else []) ++
    [Effect.phantomProbe, Effect.daemonAliveCheck]

/-- Classification of effects: true exactly for the daemon-side configuration calls (session, handle, channel, event and context calls), false for the environment checks. -/
def Effect.isConfigCall : Effect → Bool
  | Effect.daemonAliveCheck => false
  | Effect.spawnSessiond => false
  | Effect.phantomProbe => false
  | Effect.kernelTracerCheck => false
  | _ => true

/-- A neutral concrete environment for witnesses: no recorded PID, a live daemon, and every client call succeeding. -/
def baseEnv : Env :=
  { lttng_home_env := none, home_env := none, fileContent := fun _ => none,
    isdir := fun _ => false, procTable := fun _ => none,
    daemon_alive1 := 1, daemon_alive2 := 1, kernel_tracer := (0, ""),
    create_result1 := 0, create_result2 := 0,
    destroy_result := fun _ => 0, stop_result := fun _ => 0, start_result := fun _ => 0,
    handle_result := fun _ => some 7,
    enable_channel_result := fun _ _ => 0, enable_event_result := fun _ _ => 0,
    add_context_result := fun _ _ => 0, strerror := fun _ => "err",
    context_map := fun _ => some 5 }

/-- Static table for the C1 witness: vpid resolves to 3 and vtid to 4. -/
def c1_table : String → Option Int :=
  fun f => if f = "vpid" then some 3 else if f = "vtid" then some 4 else none

/-- Environment for the C3 witness: a recorded PID 42 whose process table entry is bash rather than lttng-sessiond. -/
def c3_env : Env :=
  { baseEnv with
    lttng_home_env := some "/h",
    fileContent := fun p => if p = "/h/.lttng/lttng-sessiond.pid" then some "42" else none,
    procTable := fun pid => if pid = 42 then some "bash" else none }

/-- Environment for the C7 counterexample: the PID file exists and contains the single digit 0. -/
def c7_env : Env :=
  { baseEnv with
    lttng_home_env := some "/home/u",
    fileContent := fun p => if p = "/home/u/.lttng/lttng-sessiond.pid" then some "0" else none }

/-- Environment for the C2 witness: both create calls return the reserved already-exists code -28. -/
def c2_env : Env :=
  { baseEnv with create_result1 := -28, create_result2 := -28, strerror := fun _ => "Session name already exists" }

/-- Environment for the C9 witness: create returns -28 and the destroy of the stale session fails. -/
def c9_env : Env :=
  { baseEnv with create_result1 := -28, destroy_result := fun _ => -1 }

/-- Environment for the C8 witness: stop and destroy return negative result codes. -/
def c8_env : Env :=
  { baseEnv with stop_result := fun _ => -2, destroy_result := fun _ => -3 }

/-- Environment for the C6 witness: every directory exists. -/
def c6_env : Env := { baseEnv with isdir := fun _ => true }

/-- Parameters for the C6 witness. -/
def c6_params : SetupParams :=
  { session_name := "", base_path := "/tmp", append_trace := false,
    ros_events := ["e1"], kernel_events := [], context_fields := ContextFields.set ["vpid"],
    channel_name_ust := "ros2", channel_name_kernel := "kchan",
    subbuffer_size_ust := 32768, subbuffer_size_kernel := 131072 }

/-- Parameters for the C10 witness: both event lists empty. -/
def c10_params : SetupParams :=
  { session_name := "s1", base_path := "/tmp", append_trace := false,
    ros_events := [], kernel_events := [], context_fields := ContextFields.dict [],
    channel_name_ust := "ros2", channel_name_kernel := "kchan",
    subbuffer_size_ust := 32768, subbuffer_size_kernel := 131072 }

/-- Environment for the C5 witness: the kernel tracer probe fails with a diagnostic. -/
def c5_env : Env := { baseEnv with kernel_tracer := (1, "kernel modules not found") }

/-- Parameters for the C5 witness: a non-empty kernel event list. -/
def c5_params : SetupParams :=
  { session_name := "s1", base_path := "/tmp", append_trace := false,
    ros_events := [], kernel_events := ["sched_switch"], context_fields := ContextFields.set [],
    channel_name_ust := "ros2", channel_name_kernel := "kchan",
    subbuffer_size_ust := 32768, subbuffer_size_kernel := 131072 }

/-- Environment for the C4 witness: only vpid resolves in the static context table. -/
def c4_env : Env := { baseEnv with context_map := fun f => if f = "vpid" then some 3 else none }

/-- Parameters for the C4 witness: one unresolvable context field name. -/
def c4_params : SetupParams :=
  { session_name := "s1", base_path := "/tmp", append_trace := false,
    ros_events := ["e1"], kernel_events := [], context_fields := ContextFields.set ["badctx"],
    channel_name_ust := "ros2", channel_name_kernel := "kchan",
    subbuffer_size_ust := 32768, subbuffer_size_kernel := 131072 }

theorem mapExcept_ok {α β : Type} (g : α → Except String β) (f : α → β) (l : List α)
    (h : ∀ a ∈ l, g a = Except.ok (f a)) : mapExcept g l = Except.ok (l.map f) := by
  induction l with
  | nil => rfl
  | cons a rest ih =>
    have ha := h a (List.mem_cons_self a rest)
    have hrest := ih (fun b hb => h b (List.mem_cons_of_mem a hb))
    simp [mapExcept, ha, hrest, Except.map]

theorem mapExcept_error {α β : Type} (g : α → Except String β) (l : List α)
    (h : ∃ a ∈ l, ∃ e, g a = Except.error e) :
    ∃ a ∈ l, ∃ e, g a = Except.error e ∧ mapExcept g l = Except.error e := by
  induction l with
  | nil => obtain ⟨a, ha, _⟩ := h; exact absurd ha (List.not_mem_nil a)
  | cons a rest ih =>
    cases hga : g a with
    | error e => exact ⟨a, List.mem_cons_self a rest, e, hga, by simp [mapExcept, hga]⟩
    | ok b =>
      have h2 : ∃ c ∈ rest, ∃ e, g c = Except.error e := by
        obtain ⟨c, hc, e, hce⟩ := h
        rcases List.mem_cons.mp hc with rfl | hcr
        · rw [hga] at hce; exact absurd hce (by simp)
        · exact ⟨c, hcr, e, hce⟩
      obtain ⟨c, hc, e, hce, heq⟩ := ih h2
      exact ⟨c, List.mem_cons_of_mem a hc, e, hce, by simp [mapExcept, hga, heq, Except.map]⟩

theorem create_context_list_ok (table : String → Option Int) (fs : List String)
    (h : ∀ f ∈ fs, (table f).isSome) :
    _create_context_list table fs =
      Except.ok (fs.filterMap (fun f => (table f).map EventContext.mk)) := by
  induction fs with
  | nil => rfl
  | cons f rest ih =>
    have hf : (table f).isSome := h f (List.mem_cons_self f rest)
    obtain ⟨t, ht⟩ := Option.isSome_iff_exists.mp hf
    have hrest := ih (fun g hg => h g (List.mem_cons_of_mem f hg))
    simp [_create_context_list, _context_field_name_to_type, ht, hrest, List.filterMap_cons, Except.map]

theorem create_context_list_error (table : String → Option Int) (fs : List String)
    (h : ∃ f ∈ fs, table f = none) :
    ∃ g, g ∈ fs ∧ table g = none ∧
      _create_context_list table fs = Except.error ("failed to find context type: " ++ g) := by
  induction fs with
  | nil => obtain ⟨f, hf, _⟩ := h; exact absurd hf (List.not_mem_nil f)
  | cons f rest ih =>
    cases ht : table f with
    | none =>
      exact ⟨f, List.mem_cons_self f rest, ht, by
        simp [_create_context_list, _context_field_name_to_type, ht]⟩
    | some t =>
      obtain ⟨g, hg, hgnone⟩ := h
      rcases List.mem_cons.mp hg with rfl | hgrest
      · rw [ht] at hgnone; exact absurd hgnone (by simp)
      · obtain ⟨g2, hg2, hg2none, heq⟩ := ih ⟨g, hgrest, hgnone⟩
        exact ⟨g2, List.mem_cons_of_mem f hg2, hg2none, by
          simp [_create_context_list, _context_field_name_to_type, ht, heq, Except.map]⟩

theorem daemon_stage_eq (env : Env) :
    setup_daemon_stage env =
      if is_session_daemon_unreachable env then
        ([Effect.daemonAliveCheck] ++ (if env.daemon_alive1 = 0 then [Effect.spawnSessiond] else []) ++
          [Effect.phantomProbe], Except.error PHANTOM_MSG)
      else
        (daemonTrace env,
         if env.daemon_alive2 = 0 then Except.error "failed to start lttng session daemon"
         else Except.ok ()) := by
  by_cases h1 : env.daemon_alive1 = 0 <;> by_cases h2 : is_session_daemon_unreachable env <;>
    by_cases h3 : env.daemon_alive2 = 0 <;>
    simp [setup_daemon_stage, daemonTrace, h1, h2, h3, M.bind]

theorem tracer_stage_eq (env : Env) (kernel_events : List String) :
    setup_tracer_stage env kernel_events =
      if kernel_events.isEmpty then ([], Except.ok ())
      else if env.kernel_tracer.1 = 0 then ([Effect.kernelTracerCheck], Except.ok ())
      else ([Effect.kernelTracerCheck],
        Except.error (kernel_unavailable_msg env.kernel_tracer.2)) := by
  by_cases h1 : kernel_events.isEmpty <;> by_cases h2 : env.kernel_tracer.1 = 0 <;>
    simp [setup_tracer_stage, is_kernel_tracer_available, h1, h2, M.bind]

theorem create_session_ok (env : Env) (session_name full_path : String)
    (h : 0 ≤ env.create_result1) :
    _create_session_run env session_name full_path =
      ([Effect.lttngCreate session_name full_path], Except.ok ()) := by
  have h28 : env.create_result1 ≠ -28 := by omega
  have hneg : ¬ env.create_result1 < 0 := Int.not_lt.mpr h
  simp [_create_session_run, h28, hneg, M.bind]

theorem enable_events_ok (env : Env) (h : Nat) (events : List Event) (channel_name : String)
    (hall : ∀ e ∈ events, 0 ≤ env.enable_event_result h e.name) :
    _enable_events_run env h events channel_name =
      (events.map (fun e => Effect.enableEvent h e.name channel_name), Except.ok ()) := by
  induction events with
  | nil => rfl
  | cons e rest ih =>
    have he : ¬ env.enable_event_result h e.name < 0 :=
      Int.not_lt.mpr (hall e (List.mem_cons_self e rest))
    have hrest := ih (fun x hx => hall x (List.mem_cons_of_mem e hx))
    simp [_enable_events_run, he, hrest, M.bind]

theorem domain_stage_ok (env : Env) (session_name : String) (dom : Domain)
    (ch : Channel) (events : List Event) (h : Nat)
    (hh : env.handle_result dom.dtype = some h)
    (hch : 0 ≤ env.enable_channel_result h ch.name)
    (hev : ∀ e ∈ events, 0 ≤ env.enable_event_result h e.name) :
    setup_domain_stage env session_name dom ch events =
      (Effect.createHandle session_name dom :: Effect.enableChannel h ch ::
        events.map (fun e => Effect.enableEvent h e.name ch.name), Except.ok h) := by
  have hc : ¬ env.enable_channel_result h ch.name < 0 := Int.not_lt.mpr hch
  simp [setup_domain_stage, _create_handle_run, _enable_channel_run, hh, hc,
    enable_events_ok env h events ch.name hev, M.bind]

theorem setup_run_checks (env : Env) (p : SetupParams) (h0 : ¬ p.session_name = "")
    (h1 : (env.isdir (osPathJoin p.base_path p.session_name) && !p.append_trace) = false) :
    setup_run env p =
      M.bind (setup_daemon_stage env) (fun _ =>
        M.bind (setup_tracer_stage env p.kernel_events) (fun _ =>
          setup_rest env p (osPathJoin p.base_path p.session_name))) := by
  simp [setup_run, h0, h1]

theorem setup_run_all_checks_ok (env : Env) (p : SetupParams)
    (h0 : ¬ p.session_name = "")
    (h1 : (env.isdir (osPathJoin p.base_path p.session_name) && !p.append_trace) = false)
    (h2 : is_session_daemon_unreachable env = false)
    (h3 : env.daemon_alive2 ≠ 0)
    (h4 : p.kernel_events = [] ∨ env.kernel_tracer.1 = 0) :
    setup_run env p =
      (daemonTrace env ++
        (if p.kernel_events.isEmpty then [] else [Effect.kernelTracerCheck]) ++
        (setup_rest env p (osPathJoin p.base_path p.session_name)).1,
       (setup_rest env p (osPathJoin p.base_path p.session_name)).2) := by
  rw [setup_run_checks env p h0 h1, daemon_stage_eq, tracer_stage_eq]
  rcases h4 with h4 | h4
  · simp [h2, h3, h4, M.bind, List.isEmpty_nil]
  · by_cases h5 : p.kernel_events.isEmpty <;> simp [h2, h3, h4, h5, M.bind]

theorem setup_run_tracer_fail (env : Env) (p : SetupParams)
    (h0 : ¬ p.session_name = "")
    (h1 : (env.isdir (osPathJoin p.base_path p.session_name) && !p.append_trace) = false)
    (h2 : is_session_daemon_unreachable env = false)
    (h3 : env.daemon_alive2 ≠ 0)
    (h4 : p.kernel_events ≠ [])
    (h5 : env.kernel_tracer.1 ≠ 0) :
    setup_run env p =
      (daemonTrace env ++ [Effect.kernelTracerCheck],
       Except.error (kernel_unavailable_msg env.kernel_tracer.2)) := by
  rw [setup_run_checks env p h0 h1, daemon_stage_eq, tracer_stage_eq]
  have h6 : p.kernel_events.isEmpty = false := by
    cases hk : p.kernel_events with
    | nil => exact absurd hk h4
    | cons a l => rfl
  simp [h2, h3, h4, h5, h6, M.bind]

theorem setup_rest_no_events (env : Env) (p : SetupParams) (full_path : String)
    (h4 : p.ros_events = []) (h5 : p.kernel_events = [])
    (h6 : 0 ≤ env.create_result1) :
    setup_rest env p full_path =
      ([Effect.lttngCreate p.session_name full_path], Except.ok full_path) := by
  unfold setup_rest
  rw [create_session_ok env p.session_name full_path h6]
  cases hcf : p.context_fields <;>
    simp [h4, h5, hcf, setup_domain_opt, setup_ctx_stage, _normalize_contexts_dict,
      filterHandles, mapExcept, _add_context_run, M.bind]

theorem create_session_trace_shape (env : Env) (n fp : String) :
    (_create_session_run env n fp).1 =
      Effect.lttngCreate n fp ::
        (if env.create_result1 = -28 then
          Effect.lttngDestroy n ::
            (if env.destroy_result n < 0 then [] else [Effect.lttngCreate n fp])
        else []) := by
  by_cases h1 : env.create_result1 = -28 <;> by_cases h2 : env.destroy_result n < 0 <;>
    by_cases h3 : env.create_result2 < 0 <;> by_cases h4 : env.create_result1 < 0 <;>
    simp [_create_session_run, destroy_run, h1, h2, h3, h4, M.bind]

theorem mem_create_session_config (env : Env) (n fp : String) (e : Effect)
    (he : e ∈ (_create_session_run env n fp).1) : e.isConfigCall = true := by
  rw [create_session_trace_shape] at he
  rcases List.mem_cons.mp he with rfl | he2
  · rfl
  · split at he2
    · rcases List.mem_cons.mp he2 with rfl | he3
      · rfl
      · split at he3
        · exact absurd he3 (List.not_mem_nil e)
        · rcases List.mem_cons.mp he3 with rfl | he4
          · rfl
          · exact absurd he4 (List.not_mem_nil e)
    · exact absurd he2 (List.not_mem_nil e)

theorem mem_enable_events_config (env : Env) (h : Nat) (events : List Event) (cn : String)
    (e : Effect) (he : e ∈ (_enable_events_run env h events cn).1) : e.isConfigCall = true := by
  induction events with
  | nil => exact absurd he (List.not_mem_nil e)
  | cons ev rest ih =>
    simp only [_enable_events_run] at he
    rcases mem_M_bind he with h1 | ⟨a, _, h2⟩
    · rcases List.mem_cons.mp h1 with rfl | h3
      · rfl
      · exact absurd h3 (List.not_mem_nil e)
    · exact ih h2

theorem mem_add_context_one_config (env : Env) (h : Nat) (cs : List EventContext)
    (e : Effect) (he : e ∈ (_add_context_one env h cs).1) : e.isConfigCall = true := by
  induction cs with
  | nil => exact absurd he (List.not_mem_nil e)
  | cons c rest ih =>
    simp only [_add_context_one] at he
    rcases mem_M_bind he with h1 | ⟨a, _, h2⟩
    · rcases List.mem_cons.mp h1 with rfl | h3
      · rfl
      · exact absurd h3 (List.not_mem_nil e)
    · exact ih h2

theorem mem_add_context_run_config (env : Env) (l : List (Nat × List EventContext))
    (e : Effect) (he : e ∈ (_add_context_run env l).1) : e.isConfigCall = true := by
  induction l with
  | nil => exact absurd he (List.not_mem_nil e)
  | cons hc rest ih =>
    simp only [_add_context_run] at he
    rcases mem_M_bind he with h1 | ⟨a, _, h2⟩
    · exact mem_add_context_one_config env hc.1 hc.2 e h1
    · exact ih h2

theorem mem_domain_stage_config (env : Env) (n : String) (dom : Domain) (ch : Channel)
    (events : List Event) (e : Effect)
    (he : e ∈ (setup_domain_stage env n dom ch events).1) : e.isConfigCall = true := by
  simp only [setup_domain_stage, M_bind_def] at he
  rcases mem_M_bind he with h1 | ⟨a, _, h2⟩
  · rcases List.mem_cons.mp h1 with rfl | h3
    · rfl
    · exact absurd h3 (List.not_mem_nil e)
  · rcases mem_M_bind h2 with h3 | ⟨b, _, h4⟩
    · rcases List.mem_cons.mp h3 with rfl | h5
      · rfl
      · exact absurd h5 (List.not_mem_nil e)
    · rcases mem_M_bind h4 with h5 | ⟨c, _, h6⟩
      · exact mem_enable_events_config env a events ch.name e h5
      · exact absurd h6 (List.not_mem_nil e)

theorem mem_domain_opt_config (env : Env) (n : String) (enabled : Bool) (dom : Domain)
    (ch : Channel) (events : List Event) (e : Effect)
    (he : e ∈ (setup_domain_opt env n enabled dom ch events).1) : e.isConfigCall = true := by
  unfold setup_domain_opt at he
  split at he
  · rcases mem_M_bind he with h1 | ⟨a, _, h2⟩
    · exact mem_domain_stage_config env n dom ch events e h1
    · exact absurd h2 (List.not_mem_nil e)
  · exact absurd he (List.not_mem_nil e)

theorem mem_ctx_stage_config (env : Env) (full_path : String) (cf : ContextFields)
    (hk hu : Option Nat) (e : Effect)
    (he : e ∈ (setup_ctx_stage env full_path cf hk hu).1) : e.isConfigCall = true := by
  unfold setup_ctx_stage at he
  split at he
  · exact absurd he (List.not_mem_nil e)
  · rcases mem_M_bind he with h1 | ⟨a, _, h2⟩
    · exact mem_add_context_run_config env _ e h1
    · exact absurd h2 (List.not_mem_nil e)

theorem mem_setup_rest_config (env : Env) (p : SetupParams) (full_path : String)
    (e : Effect) (he : e ∈ (setup_rest env p full_path).1) : e.isConfigCall = true := by
  simp only [setup_rest, M_bind_def] at he
  rcases mem_M_bind he with h1 | ⟨a, _, h2⟩
  · exact mem_create_session_config env p.session_name full_path e h1
  · rcases mem_M_bind h2 with h3 | ⟨hu, _, h4⟩
    · exact mem_domain_opt_config env p.session_name _ domain_ust (mk_channel_ust p) _ e h3
    · rcases mem_M_bind h4 with h5 | ⟨hk, _, h6⟩
      · exact mem_domain_opt_config env p.session_name _ domain_kernel (mk_channel_kernel p) _ e h5
      · exact mem_ctx_stage_config env full_path _ hk hu e h6

theorem kernelTracerCheck_not_mem_daemonTrace (env : Env) :
    Effect.kernelTracerCheck ∉ daemonTrace env := by
  by_cases h : env.daemon_alive1 = 0 <;> simp [daemonTrace, h]

theorem daemonTrace_not_config (env : Env) (e : Effect) (he : e ∈ daemonTrace env) :
    e.isConfigCall = false := by
  by_cases h : env.daemon_alive1 = 0
  · simp [daemonTrace, h] at he
    rcases he with rfl | rfl | rfl | rfl <;> rfl
  · simp [daemonTrace, h] at he
    rcases he with rfl | rfl | rfl <;> rfl

theorem setup_rest_ctx_error (env : Env) (p : SetupParams) (full_path : String)
    (h : Nat) (fs : List String)
    (h4 : p.kernel_events = [])
    (hros : p.ros_events ≠ [])
    (h6 : 0 ≤ env.create_result1)
    (hh : env.handle_result DomainType.ust = some h)
    (hch : 0 ≤ env.enable_channel_result h p.channel_name_ust)
    (hev : ∀ n ∈ p.ros_events, 0 ≤ env.enable_event_result h n)
    (hcf : p.context_fields = ContextFields.set fs)
    (hbad : ∃ f ∈ fs, env.context_map f = none) :
    ∃ g, g ∈ fs ∧ env.context_map g = none ∧
      setup_rest env p full_path =
        (Effect.lttngCreate p.session_name full_path ::
          Effect.createHandle p.session_name domain_ust ::
          Effect.enableChannel h (mk_channel_ust p) ::
          p.ros_events.dedup.map (fun n => Effect.enableEvent h n p.channel_name_ust),
         Except.error ("failed to find context type: " ++ g)) := by
  obtain ⟨g, hg, hgnone, hccl⟩ := create_context_list_error env.context_map fs hbad
  refine ⟨g, hg, hgnone, ?_⟩
  have hue : p.ros_events.dedup.isEmpty = false := by
    cases hd : p.ros_events.dedup with
    | nil => exact absurd ((List.dedup_eq_nil _).mp hd) hros
    | cons a l => rfl
  have hch2 : 0 ≤ env.enable_channel_result h (mk_channel_ust p).name := by
    simpa [mk_channel_ust] using hch
  have hhh : env.handle_result domain_ust.dtype = some h := by
    simpa [domain_ust] using hh
  have hev2 : ∀ e ∈ _create_events p.ros_events.dedup, 0 ≤ env.enable_event_result h e.name := by
    intro e he
    simp only [_create_events, List.mem_map] at he
    obtain ⟨n, hn, rfl⟩ := he
    exact hev n (List.mem_dedup.mp hn)
  have hstage := domain_stage_ok env p.session_name domain_ust (mk_channel_ust p)
    (_create_events p.ros_events.dedup) h hhh hch2 hev2
  have hnorm : _normalize_contexts_dict env.context_map
      [("kernel", (none : Option Nat)), ("userspace", some h)] (ContextFields.set fs) =
      Except.error ("failed to find context type: " ++ g) := by
    simp [_normalize_contexts_dict, filterHandles, mapExcept, hccl, Except.map]
  simp [setup_rest, h4, hcf, hue, setup_domain_opt, hstage, setup_ctx_stage, hnorm,
    create_session_ok env p.session_name full_path h6, M.bind]
  simp [_create_events, mk_channel_ust, List.map_map, Function.comp]
  rfl

/-- Claim C1 counterexample: with the kernel domain enabled (non-null handle) and a per-domain mapping that only lists the userspace domain, normalization raises KeyError for the kernel domain instead of producing an empty context list, refuting the claim as stated. -/
theorem c1_counterexample :
    _normalize_contexts_dict (fun _ => some 1) [("kernel", some 1), ("userspace", Option.none)]
      (ContextFields.dict [("userspace", ["vpid"])]) =
      Except.error ("KeyError: " ++ "kernel") := by rfl

/-- Claim C1 (amended): for a per-domain mapping, normalization produces, for each domain whose handle is non-null and which is present as a key of the mapping, exactly the context descriptors of the field list supplied for that domain; a domain whose handle is non-null but which is absent from the mapping makes normalization fail with a key lookup error, not an empty context list. -/
theorem c1_normalize_dict_amended (table : String → Option Int)
    (handles : List (String × Option Nat)) (m : List (String × List String)) :
    ((∀ p ∈ filterHandles handles, ∃ fs, lookupDict m p.1 = some fs ∧
        ∀ f ∈ fs, (table f).isSome) →
      _normalize_contexts_dict table handles (ContextFields.dict m) =
        Except.ok ((filterHandles handles).map (fun p =>
          (p.2, ((lookupDict m p.1).getD []).dedup.filterMap
            (fun f => (table f).map EventContext.mk))))) ∧
    ((∀ p ∈ filterHandles handles, ∀ fs, lookupDict m p.1 = some fs →
        ∀ f ∈ fs, (table f).isSome) →
      (∃ p ∈ filterHandles handles, lookupDict m p.1 = none) →
      ∃ d h, (d, h) ∈ filterHandles handles ∧ lookupDict m d = none ∧
        _normalize_contexts_dict table handles (ContextFields.dict m) =
          Except.error ("KeyError: " ++ d)) := by
  constructor
  · intro hres
    unfold _normalize_contexts_dict
    refine mapExcept_ok _ _ _ (fun p hp => ?_)
    obtain ⟨fs, hlook, hall⟩ := hres p hp
    have hccl := create_context_list_ok table fs.dedup
      (fun f hf => hall f (List.mem_dedup.mp hf))
    simp [hlook, hccl, Except.map]
  · intro hall hmiss
    have herr : ∃ p ∈ filterHandles handles, ∃ e,
        (fun p => match lookupDict m p.1 with
          | none => Except.error ("KeyError: " ++ p.1)
          | some fields =>
            (_create_context_list table fields.dedup).map (fun l => (p.2, l))) p =
          Except.error e := by
      obtain ⟨p, hp, hnone⟩ := hmiss
      exact ⟨p, hp, "KeyError: " ++ p.1, by simp [hnone]⟩
    obtain ⟨p, hp, e, hpe, heq⟩ := mapExcept_error _ _ herr
    cases hlook : lookupDict m p.1 with
    | none =>
      refine ⟨p.1, p.2, hp, hlook, ?_⟩
      simp only [hlook] at hpe
      simp only [_normalize_contexts_dict]
      injection hpe with hstr
      rw [heq, ← hstr]
    | some fs =>
      have hccl := create_context_list_ok table fs.dedup
        (fun f hf => hall p hp fs hlook f (List.mem_dedup.mp hf))
      simp [hlook, hccl, Except.map] at hpe

/-- Claim C1 witness: concrete instantiation of the amended normalization theorem on two enabled domains, both present in the mapping. -/
theorem c1_normalize_dict_amended_witness :
    _normalize_contexts_dict c1_table [("kernel", some 1), ("userspace", some 2)]
      (ContextFields.dict [("kernel", ["vpid"]), ("userspace", ["vtid", "vtid"])]) =
      Except.ok [(1, [EventContext.mk 3]), (2, [EventContext.mk 4])] := by
  have h := (c1_normalize_dict_amended c1_table [("kernel", some 1), ("userspace", some 2)]
    [("kernel", ["vpid"]), ("userspace", ["vtid", "vtid"])]).1 ?_
  · rw [h]; rfl
  · intro p hp
    have hfh : filterHandles [("kernel", some 1), ("userspace", some 2)] =
        [("kernel", 1), ("userspace", 2)] := rfl
    rw [hfh] at hp
    rcases List.mem_cons.mp hp with rfl | hp2
    · exact ⟨["vpid"], rfl, by decide⟩
    · rcases List.mem_cons.mp hp2 with rfl | hp3
      · exact ⟨["vtid", "vtid"], rfl, by decide⟩
      · exact absurd hp3 (List.not_mem_nil p)

/-- Claim C2: when session creation returns the reserved already-exists result code -28, setup destroys the stale session and retries creation exactly once (the effect trace holds exactly two create calls with one destroy between them); any negative result on the retry, including a second -28, is fatal and never retried again; any other negative result on the first attempt is fatal without any retry. -/
theorem c2_create_session_retry (env : Env) (session_name full_path : String) :
    (env.create_result1 = -28 → 0 ≤ env.destroy_result session_name →
      (_create_session_run env session_name full_path).1 =
        [Effect.lttngCreate session_name full_path, Effect.lttngDestroy session_name,
         Effect.lttngCreate session_name full_path] ∧
      (env.create_result2 < 0 →
        (_create_session_run env session_name full_path).2 =
          Except.error ("session creation failed: " ++ env.strerror env.create_result2)) ∧
      (0 ≤ env.create_result2 →
        (_create_session_run env session_name full_path).2 = Except.ok ())) ∧
    (env.create_result1 < 0 → env.create_result1 ≠ -28 →
      _create_session_run env session_name full_path =
        ([Effect.lttngCreate session_name full_path],
         Except.error ("session creation failed: " ++ env.strerror env.create_result1))) := by
  constructor
  · intro h28 hdes
    have hd : ¬ env.destroy_result session_name < 0 := Int.not_lt.mpr hdes
    refine ⟨?_, fun hneg => ?_, fun hok => ?_⟩
    · simp [_create_session_run, destroy_run, h28, hd, M.bind]
      split <;> rfl
    · simp [_create_session_run, destroy_run, h28, hd, hneg, M.bind]
    · have hr2 : ¬ env.create_result2 < 0 := Int.not_lt.mpr hok
      simp [_create_session_run, destroy_run, h28, hd, hr2, M.bind]
  · intro hneg hne
    simp [_create_session_run, destroy_run, hne, hneg, M.bind]

/-- Claim C2 witness: with both create calls returning -28, the retry happens exactly once and the second -28 is fatal. -/
theorem c2_create_session_retry_witness :
    (_create_session_run c2_env "s1" "/tmp/s1").1 =
      [Effect.lttngCreate "s1" "/tmp/s1", Effect.lttngDestroy "s1",
       Effect.lttngCreate "s1" "/tmp/s1"] ∧
    (_create_session_run c2_env "s1" "/tmp/s1").2 =
      Except.error ("session creation failed: " ++ "Session name already exists") := by
  have h := (c2_create_session_retry c2_env "s1" "/tmp/s1").1 (by decide) (by decide)
  exact ⟨h.1, h.2.1 (by decide)⟩

/-- Claim C3: is_session_daemon_unreachable returns false whenever no daemon PID is recorded; with a recorded PID it returns true when the process is absent from the live process table, true when the command name of the process differs from lttng-sessiond, and false otherwise. -/
theorem c3_daemon_unreachable (env : Env) :
    (get_session_daemon_pid env = none → is_session_daemon_unreachable env = false) ∧
    (∀ pid, get_session_daemon_pid env = some pid →
      (env.procTable pid = none → is_session_daemon_unreachable env = true) ∧
      (∀ comm, env.procTable pid = some comm →
        (pyStrip comm ≠ "lttng-sessiond" → is_session_daemon_unreachable env = true) ∧
        (pyStrip comm = "lttng-sessiond" → is_session_daemon_unreachable env = false))) := by
  refine ⟨fun h => ?_, fun pid hpid => ⟨fun hproc => ?_, fun comm hcomm => ⟨fun hne => ?_, fun heq => ?_⟩⟩⟩
  · simp [is_session_daemon_unreachable, h]
  · simp [is_session_daemon_unreachable, hpid, psComm, hproc]
  · simp [is_session_daemon_unreachable, hpid, psComm, hcomm, hne]
  · simp [is_session_daemon_unreachable, hpid, psComm, hcomm, heq]

/-- Claim C3 witness: a recorded PID owned by bash is reported unreachable. -/
theorem c3_daemon_unreachable_witness : is_session_daemon_unreachable c3_env = true :=
  (((c3_daemon_unreachable c3_env).2 42 (by decide)).2 "bash" (by decide)).1 (by decide)

/-- Claim C4: a context field name that does not resolve through the static table makes list creation fail with an error naming an unresolvable field of the set; every resolvable name yields a descriptor carrying the resolved type; and in a full setup run the failure happens with no addContext call in the effect trace. -/
theorem c4_context_resolution :
    (∀ (table : String → Option Int) (fs : List String),
      (∃ f ∈ fs, table f = none) →
      ∃ g, g ∈ fs ∧ table g = none ∧
        _create_context_list table fs =
          Except.error ("failed to find context type: " ++ g)) ∧
    (∀ (table : String → Option Int) (fs : List String),
      (∀ f ∈ fs, (table f).isSome) →
      _create_context_list table fs =
        Except.ok (fs.filterMap (fun f => (table f).map EventContext.mk))) ∧
    (∀ (env : Env) (p : SetupParams) (h : Nat) (fs : List String),
      ¬ p.session_name = "" →
      (env.isdir (osPathJoin p.base_path p.session_name) && !p.append_trace) = false →
      is_session_daemon_unreachable env = false →
      env.daemon_alive2 ≠ 0 →
      p.kernel_events = [] →
      p.ros_events ≠ [] →
      0 ≤ env.create_result1 →
      env.handle_result DomainType.ust = some h →
      0 ≤ env.enable_channel_result h p.channel_name_ust →
      (∀ n ∈ p.ros_events, 0 ≤ env.enable_event_result h n) →
      p.context_fields = ContextFields.set fs →
      (∃ f ∈ fs, env.context_map f = none) →
      ∃ g, g ∈ fs ∧ env.context_map g = none ∧
        (setup_run env p).2 = Except.error ("failed to find context type: " ++ g) ∧
        ∀ (hd : Nat) (c : Int), Effect.addContext hd c ∉ (setup_run env p).1) := by
  refine ⟨create_context_list_error, create_context_list_ok, ?_⟩
  intro env p h fs h0 h1 h2 h3 h4 hros h6 hh hch hev hcf hbad
  obtain ⟨g, hg, hgnone, hrest⟩ := setup_rest_ctx_error env p
    (osPathJoin p.base_path p.session_name) h fs h4 hros h6 hh hch hev hcf hbad
  have hrun := setup_run_all_checks_ok env p h0 h1 h2 h3 (Or.inl h4)
  have h4e : p.kernel_events.isEmpty = true := by rw [h4]; rfl
  refine ⟨g, hg, hgnone, ?_, ?_⟩
  · rw [hrun]
    simp [h4e, hrest]
  · intro hd c hmem
    rw [hrun] at hmem
    simp only [h4e, if_true] at hmem
    rcases List.mem_append.mp hmem with hmem1 | hmem2
    · rcases List.mem_append.mp hmem1 with hdt | hnil
      · have hc := daemonTrace_not_config env _ hdt
        simp [Effect.isConfigCall] at hc
      · exact absurd hnil (List.not_mem_nil _)
    · rw [hrest] at hmem2
      simp at hmem2

/-- Claim C4 witness: a setup run over the single unresolvable field badctx fails naming it. -/
theorem c4_context_resolution_witness :
    (setup_run c4_env c4_params).2 =
      Except.error ("failed to find context type: " ++ "badctx") := by
  obtain ⟨g, hg, hgnone, herr, hnoctx⟩ := c4_context_resolution.2.2 c4_env c4_params 7 ["badctx"]
    (by decide) (by decide) (by decide) (by decide) rfl (by decide) (Int.le_refl 0) rfl
    (Int.le_refl 0) (fun n hn => Int.le_refl 0) rfl
    ⟨"badctx", List.mem_cons_self "badctx" [], rfl⟩
  rcases List.mem_cons.mp hg with rfl | hnil
  · exact herr
  · exact absurd hnil (List.not_mem_nil g)

/-- Claim C5: the kernel tracer probe appears in a setup trace only when the kernel event list is non-empty, and only directly after the daemon aliveness, spawn and phantom checks; when the probe reports unavailable, setup fails with a diagnostic embedding the raw backend error text and the trace holds no configuration call (no session, channel, event or context call) for either domain. -/
theorem c5_kernel_precheck :
    (∀ (env : Env) (p : SetupParams), Effect.kernelTracerCheck ∈ (setup_run env p).1 →
      p.kernel_events ≠ [] ∧
      ∃ post, (setup_run env p).1 = daemonTrace env ++ Effect.kernelTracerCheck :: post) ∧
    (∀ (env : Env) (p : SetupParams), ¬ p.session_name = "" →
      (env.isdir (osPathJoin p.base_path p.session_name) && !p.append_trace) = false →
      is_session_daemon_unreachable env = false → env.daemon_alive2 ≠ 0 →
      p.kernel_events ≠ [] → env.kernel_tracer.1 ≠ 0 →
      setup_run env p =
        (daemonTrace env ++ [Effect.kernelTracerCheck],
         Except.error ("kernel tracer is not available: " ++ env.kernel_tracer.2 ++
           kernel_msg_tail)) ∧
      ∀ e ∈ (setup_run env p).1, e.isConfigCall = false) := by
  constructor
  · intro env p hmem
    by_cases h0 : p.session_name = ""
    · simp [setup_run, h0] at hmem
    by_cases h1 : (env.isdir (osPathJoin p.base_path p.session_name) && !p.append_trace) = true
    · simp [setup_run, h0, h1] at hmem
    have h1f : (env.isdir (osPathJoin p.base_path p.session_name) && !p.append_trace) = false := by
      revert h1; cases env.isdir (osPathJoin p.base_path p.session_name) && !p.append_trace <;> simp
    by_cases h2 : is_session_daemon_unreachable env
    · rw [setup_run_checks env p h0 h1f, daemon_stage_eq] at hmem
      by_cases ha : env.daemon_alive1 = 0 <;> simp [h2, ha, M.bind] at hmem
    by_cases h3 : env.daemon_alive2 = 0
    · rw [setup_run_checks env p h0 h1f, daemon_stage_eq, tracer_stage_eq] at hmem
      simp only [h2, if_false, Bool.if_false_left] at hmem
      by_cases ha : env.daemon_alive1 = 0 <;>
        simp [h2, h3, ha, M.bind, daemonTrace] at hmem
    by_cases h4 : p.kernel_events.isEmpty
    · rw [setup_run_all_checks_ok env p h0 h1f (by revert h2; cases is_session_daemon_unreachable env <;> simp) h3
        (Or.inl (List.isEmpty_iff.mp h4))] at hmem
      rw [h4] at hmem
      simp only [if_true] at hmem
      rcases List.mem_append.mp hmem with hd | hr
      · rcases List.mem_append.mp hd with hdd | hde
        · exact absurd hdd (kernelTracerCheck_not_mem_daemonTrace env)
        · exact absurd hde (List.not_mem_nil _)
      · have := mem_setup_rest_config env p _ _ hr
        exact absurd this (by decide)
    have h2f : is_session_daemon_unreachable env = false := by
      revert h2; cases is_session_daemon_unreachable env <;> simp
    have h4ne : p.kernel_events ≠ [] := by
      intro hnil; rw [hnil] at h4; exact h4 rfl
    have h4f : p.kernel_events.isEmpty = false := by
      revert h4; cases p.kernel_events.isEmpty <;> simp
    by_cases h5 : env.kernel_tracer.1 = 0
    · have heq := setup_run_all_checks_ok env p h0 h1f h2f h3 (Or.inr h5)
      refine ⟨h4ne, (setup_rest env p (osPathJoin p.base_path p.session_name)).1, ?_⟩
      rw [heq, h4f]
      simp
    · have heq := setup_run_tracer_fail env p h0 h1f h2f h3 h4ne h5
      refine ⟨h4ne, [], ?_⟩
      rw [heq]
  · intro env p h0 h1 h2 h3 h4 h5
    have heq := setup_run_tracer_fail env p h0 h1 h2 h3 h4 h5
    refine ⟨by rw [heq]; rfl, ?_⟩
    intro e he
    rw [heq] at he
    rcases List.mem_append.mp he with hd | hk
    · exact daemonTrace_not_config env e hd
    · rcases List.mem_cons.mp hk with rfl | hnil
      · rfl
      · exact absurd hnil (List.not_mem_nil e)

/-- Claim C5 witness: a setup run with kernel events and a failing probe stops right after the probe with the diagnostic. -/
theorem c5_kernel_precheck_witness :
    setup_run c5_env c5_params =
      ([Effect.daemonAliveCheck, Effect.phantomProbe, Effect.daemonAliveCheck,
        Effect.kernelTracerCheck],
       Except.error ("kernel tracer is not available: " ++ "kernel modules not found" ++
         kernel_msg_tail)) := by
  have h := (c5_kernel_precheck.2 c5_env c5_params (by decide) (by decide) (by decide)
    (by decide) (by decide) (by decide)).1
  rw [h]; rfl

/-- Claim C6: setup with an empty session name fails with an error and an empty effect trace (no side effects); setup against an existing directory without the append option fails with a directory-already-exists error naming the exact path, again with an empty effect trace, hence before any daemon call. -/
theorem c6_setup_validation (env : Env) (p : SetupParams) :
    (p.session_name = "" → setup_run env p = ([], Except.error "empty session name")) ∧
    (p.session_name ≠ "" → env.isdir (osPathJoin p.base_path p.session_name) = true →
      p.append_trace = false →
      setup_run env p =
        ([], Except.error ("trace directory already exists, use the append option to append to it: " ++
          osPathJoin p.base_path p.session_name))) := by
  constructor
  · intro h; simp [setup_run, h]
  · intro h0 h1 h2; simp [setup_run, dir_exists_msg, h0, h1, h2]

/-- Claim C6 witness: concrete runs of the two validation failures. -/
theorem c6_setup_validation_witness :
    setup_run c6_env { c6_params with session_name := "" } = ([], Except.error "empty session name") ∧
    setup_run c6_env { c6_params with session_name := "s1" } =
      ([], Except.error ("trace directory already exists, use the append option to append to it: " ++
        osPathJoin "/tmp" "s1")) := by
  refine ⟨(c6_setup_validation c6_env _).1 rfl,
    (c6_setup_validation c6_env _).2 (by decide) (by decide) rfl⟩

/-- Claim C7 counterexample: a PID file containing 0 makes the function return some 0 even though 0 is not a positive integer, refuting the claim that any content that is not a positive integer yields None. -/
theorem c7_counterexample : get_session_daemon_pid c7_env = some 0 ∧ ¬ 0 < (0 : Nat) :=
  ⟨by decide, by decide⟩

/-- Claim C7 (amended): get_session_daemon_pid returns None whenever the tracing home cannot be resolved (unset or empty), the PID file is absent, or the stripped file content is not a non-empty string of decimal digits; otherwise it returns the (possibly zero) integer recorded in the file. -/
theorem c7_pid_amended (env : Env) :
    (get_lttng_home env = none → get_session_daemon_pid env = none) ∧
    (get_lttng_home env = some "" → get_session_daemon_pid env = none) ∧
    (∀ home, get_lttng_home env = some home → home ≠ "" →
      (env.fileContent (pidFilePath home) = none → get_session_daemon_pid env = none) ∧
      (∀ contents, env.fileContent (pidFilePath home) = some contents →
        (pyIsDigit (pyStrip contents) = false → get_session_daemon_pid env = none) ∧
        (pyIsDigit (pyStrip contents) = true →
          get_session_daemon_pid env = some (strToNat (pyStrip contents))))) := by
  refine ⟨fun h => ?_, fun h => ?_,
    fun home hhome hne => ⟨fun hfile => ?_, fun contents hfile => ⟨fun hdig => ?_, fun hdig => ?_⟩⟩⟩
  · simp [get_session_daemon_pid, h]
  · simp [get_session_daemon_pid, h]
  · simp [get_session_daemon_pid, hhome, hne, hfile]
  · simp [get_session_daemon_pid, hhome, hne, hfile, hdig]
  · simp [get_session_daemon_pid, hhome, hne, hfile, hdig]

/-- Claim C7 witness: concrete instantiation of the amended theorem. -/
theorem c7_pid_amended_witness : get_session_daemon_pid c7_env = some 0 := by
  have h := (((c7_pid_amended c7_env).2.2 "/home/u" (by decide) (by decide)).2 "0"
    (by decide)).2 (by decide)
  rw [h]; rfl

/-- Claim C8: stop and destroy raise an error carrying the error string of the daemon exactly when the client call returns a negative result and ignore_error is false; with ignore_error true a negative result is silently absorbed and the call returns normally. -/
theorem c8_stop_destroy_ignore_error (env : Env) (session_name : String) (ignore_error : Bool) :
    ((stop_run env session_name ignore_error).2 =
        Except.error (stop_error_msg env session_name) ↔
      env.stop_result session_name < 0 ∧ ignore_error = false) ∧
    (ignore_error = true → (stop_run env session_name ignore_error).2 = Except.ok ()) ∧
    ((destroy_run env session_name ignore_error).2 =
        Except.error (destroy_error_msg env session_name) ↔
      env.destroy_result session_name < 0 ∧ ignore_error = false) ∧
    (ignore_error = true → (destroy_run env session_name ignore_error).2 = Except.ok ()) := by
  cases ignore_error <;>
    by_cases hs : env.stop_result session_name < 0 <;>
    by_cases hd : env.destroy_result session_name < 0 <;>
    simp [stop_run, destroy_run, hs, hd]

/-- Claim C8 witness: failing stop and destroy calls absorbed under ignore_error and raised without it. -/
theorem c8_stop_destroy_ignore_error_witness :
    (stop_run c8_env "s1" true).2 = Except.ok () ∧
    (destroy_run c8_env "s1" true).2 = Except.ok () ∧
    (stop_run c8_env "s1" false).2 = Except.error (stop_error_msg c8_env "s1") := by
  refine ⟨(c8_stop_destroy_ignore_error c8_env "s1" true).2.1 rfl,
    (c8_stop_destroy_ignore_error c8_env "s1" true).2.2.2 rfl,
    (c8_stop_destroy_ignore_error c8_env "s1" false).1.mpr ⟨by decide, rfl⟩⟩

/-- Claim C9: on the already-exists retry path, the destroy of the stale session is not error-suppressed: a negative destroy result raises immediately and the trace shows that the second create call is never made. -/
theorem c9_retry_destroy_not_suppressed (env : Env) (session_name full_path : String) :
    env.create_result1 = -28 → env.destroy_result session_name < 0 →
    _create_session_run env session_name full_path =
      ([Effect.lttngCreate session_name full_path, Effect.lttngDestroy session_name],
       Except.error ("failed to destroy tracing session: " ++
         env.strerror (env.destroy_result session_name))) := by
  intro h28 hd
  simp [_create_session_run, destroy_run, destroy_error_msg, h28, hd, M.bind]

/-- Claim C9 witness: concrete run where the inner destroy fails. -/
theorem c9_retry_destroy_not_suppressed_witness :
    _create_session_run c9_env "s1" "/tmp/s1" =
      ([Effect.lttngCreate "s1" "/tmp/s1", Effect.lttngDestroy "s1"],
       Except.error ("failed to destroy tracing session: " ++ "err")) :=
  c9_retry_destroy_not_suppressed c9_env "s1" "/tmp/s1" (by decide) (by decide)

/-- Claim C10: with both event lists empty, setup still performs the daemon checks, creates the daemon-side session, enables no channels, no events and no context fields for either domain, and returns the joined path of base path and session name. -/
theorem c10_setup_empty_events (env : Env) (p : SetupParams)
    (h0 : ¬ p.session_name = "")
    (h1 : (env.isdir (osPathJoin p.base_path p.session_name) && !p.append_trace) = false)
    (h2 : is_session_daemon_unreachable env = false)
    (h3 : env.daemon_alive2 ≠ 0)
    (h4 : p.ros_events = []) (h5 : p.kernel_events = [])
    (h6 : 0 ≤ env.create_result1) :
    setup_run env p =
      (daemonTrace env ++
        [Effect.lttngCreate p.session_name (osPathJoin p.base_path p.session_name)],
       Except.ok (osPathJoin p.base_path p.session_name)) := by
  rw [setup_run_all_checks_ok env p h0 h1 h2 h3 (Or.inl h5),
    setup_rest_no_events env p _ h4 h5 h6]
  simp [h5]

/-- Claim C10 witness: concrete empty-events setup run. -/
theorem c10_setup_empty_events_witness :
    setup_run baseEnv c10_params =
      ([Effect.daemonAliveCheck, Effect.phantomProbe, Effect.daemonAliveCheck,
        Effect.lttngCreate "s1" "/tmp/s1"],
       Except.ok "/tmp/s1") := by
  have h := c10_setup_empty_events baseEnv c10_params (by decide) (by decide) (by decide)
    (by decide) rfl rfl (by decide)
  rw [h]; rfl
